import Mathlib

/-!
A verification development for a PDF retrieval-augmented-generation (RAG)
service.  The source consists of an ingestion worker (`worker.js`: read a PDF,
split its text into chunks, embed the chunks, ensure a Qdrant collection
exists, upsert the chunk vectors as points), an HTTP query server (the
`/chat` and `/chat/stream` endpoints: validate the query, embed it, search
the vector index, assemble a grounded prompt, call the generation provider),
and an embedding adapter (`embedding-model.js`).

The code is embedded shallowly: every external call (file system, PDF parser,
embedding provider, Qdrant, Groq) is a parameter of the embedded function,
supplied as a pure function returning `Except`-wrapped results, and each
embedded pipeline additionally returns the ordered list of external calls it
performed, so that frame properties ("the upsert never happens when embedding
failed", "the generation provider is not invoked on the zero-result path")
are statements about that trace.  Embedding vectors and similarity scores are
never inspected by the code (they are produced by one provider and passed
verbatim to another), so their numeric components are modelled with `Int`
to keep every definition executable and decidable.
-/

/-- Embedding vectors: fixed-length sequences of numeric components.  The
code never computes with the components (they flow from the embedding
provider into Qdrant unchanged), so they are modelled as integers. -/
abbrev Vec := List Int

/-! ## The embedding adapter (`embedding-model.js`) -/

/-- A JavaScript value, as far as the embedding adapter can observe one:
its `docs` argument may be a string, number, boolean, `null`, `undefined`,
or an array of further values. -/
inductive JSVal
  | str (s : String)
  | num (n : Int)
  | bool (b : Bool)
  | null
  | undefined
  | arr (xs : List JSVal)

/-- `Array.isArray(docs)` from `embedding-model.js`. -/
def JSVal.isArray : JSVal → Bool
  | .arr _ => true
  | _ => false

/-- The elements of an array value (used only after `isArray` succeeded). -/
def JSVal.elems : JSVal → List JSVal
  | .arr xs => xs
  | _ => []

/-- Whether a value is `null` or `undefined` (these stringify to the empty
string inside a JavaScript array join). -/
def JSVal.isNullish : JSVal → Bool
  | .null => true
  | .undefined => true
  | _ => false

/-- JavaScript `String(d)` coercion, as applied by
`docs.map((d) => String(d))` in `embedding-model.js`.  Arrays stringify by
joining their elements with commas, with `null`/`undefined` elements
becoming the empty string. -/
def jsToString : JSVal → String
  | .str s => s
  | .num n => toString n
  | .bool b => if b then "true" else "false"
  | .null => "null"
  | .undefined => "undefined"
  | .arr xs => String.intercalate "," (xs.attach.map fun ⟨v, _⟩ =>
      if v.isNullish then "" else jsToString v)
decreasing_by
  have := List.sizeOf_lt_of_mem ‹v ∈ xs›
  simp only [JSVal.arr.sizeOf_spec]
  omega

/-- Errors the embedding adapter can surface: its own argument-validation
error, or a rethrown provider error. -/
inductive EmbErr
  | validation (msg : String)
  | provider (msg : String)
deriving DecidableEq

/-- `embeddingModel({ docs })` from `embedding-model.js`: throw a validation
error unless `docs` is an array; coerce every element to a string; send the
coerced strings to the provider in one call; rethrow provider failures.
The provider call (`ai.models.embedContent` followed by extracting
`response.embeddings[i].values`) is the parameter `callProvider`, which
returns the extracted vectors. -/
def embeddingModel (callProvider : List String → Except String (List Vec))
    (docs : JSVal) : Except EmbErr (List Vec) :=
  if docs.isArray = false then
    .error (.validation "docs must be an array of strings")
  else
    match callProvider (docs.elems.map jsToString) with
    | .ok embs => .ok embs
    | .error e => .error (.provider e)

/-! ## The chunker

`worker.js` instantiates `CharacterTextSplitter` from `@langchain/textsplitters`
with `chunkSize: 1000` and `chunkOverlap: 100`; that library is not part of
this repository's sources. -/

/-- Modelled from the spec: the text splitter used by the ingestion worker
lives in the external `@langchain/textsplitters` package, so it is modelled
here from the spec's chunker contract (§4.1): a fixed-size sliding window
with chunk size `S = 1000` and overlap `O = 100` (stride `S − O = 900`);
each chunk except possibly the last has length `S`, consecutive chunks
overlap by `O`, and empty text yields no chunks. -/
def splitTextSpec (text : List Char) : List (List Char) :=
  if _h0 : text.length = 0 then []
  else if _h1 : text.length ≤ 1000 then [text]
  else text.take 1000 :: splitTextSpec (text.drop 900)
termination_by text.length
decreasing_by
  simp only [List.length_drop]
  omega

/-- The chunk count the spec predicts: `⌈(len − O) / (S − O)⌉` chunks for
`len > S`, one chunk for `0 < len ≤ S`, none for empty text (with
`S = 1000`, `O = 100`, and `⌈a/b⌉ = (a + b − 1) / b` on naturals). -/
def chunkCount (len : Nat) : Nat :=
  if len = 0 then 0
  else if len ≤ 1000 then 1
  else (len - 100 + 899) / 900

theorem splitTextSpec_length (text : List Char) :
    (splitTextSpec text).length = chunkCount text.length := by
  induction text using splitTextSpec.induct with
  | case1 text h0 =>
    simp [splitTextSpec, chunkCount, h0]
  | case2 text h0 h1 =>
    simp [splitTextSpec, chunkCount, h0, h1]
  | case3 text h0 h1 ih =>
    rw [splitTextSpec]
    rw [dif_neg h0, dif_neg h1]
    simp only [List.length_cons, ih, List.length_drop]
    unfold chunkCount
    split_ifs <;> omega

theorem splitTextSpec_ne_nil (text : List Char) (h : text.length ≠ 0) :
    splitTextSpec text ≠ [] := by
  rw [splitTextSpec, dif_neg h]
  split <;> simp

theorem splitTextSpec_head (text : List Char) (h : text.length ≠ 0) :
    (splitTextSpec text).head? =
      some (if text.length ≤ 1000 then text else text.take 1000) := by
  rw [splitTextSpec, dif_neg h]
  split <;> simp_all

theorem splitTextSpec_dropLast_length (text : List Char) :
    ∀ c ∈ (splitTextSpec text).dropLast, c.length = 1000 := by
  induction text using splitTextSpec.induct with
  | case1 text h0 =>
    rw [splitTextSpec, dif_pos h0]
    simp
  | case2 text h0 h1 =>
    rw [splitTextSpec, dif_neg h0, dif_pos h1]
    simp
  | case3 text h0 h1 ih =>
    rw [splitTextSpec, dif_neg h0, dif_neg h1]
    have hne : splitTextSpec (text.drop 900) ≠ [] := by
      apply splitTextSpec_ne_nil
      simp only [List.length_drop]
      omega
    rw [List.dropLast_cons_of_ne_nil hne]
    intro c hc
    rcases List.mem_cons.mp hc with rfl | hc'
    · simp only [List.length_take]
      omega
    · exact ih c hc'

theorem splitTextSpec_overlap (text : List Char) :
    List.Chain' (fun a b => a.drop 900 = b.take 100) (splitTextSpec text) := by
  induction text using splitTextSpec.induct with
  | case1 text h0 =>
    rw [splitTextSpec, dif_pos h0]
    exact List.chain'_nil
  | case2 text h0 h1 =>
    rw [splitTextSpec, dif_neg h0, dif_pos h1]
    exact List.chain'_singleton text
  | case3 text h0 h1 ih =>
    rw [splitTextSpec, dif_neg h0, dif_neg h1]
    rw [List.chain'_cons']
    refine ⟨?_, ih⟩
    intro b hb
    have hlen : (text.drop 900).length ≠ 0 := by
      simp only [List.length_drop]
      omega
    rw [splitTextSpec_head _ hlen] at hb
    simp only [Option.mem_def, Option.some.injEq] at hb
    subst hb
    rw [List.drop_take]
    split
    · rfl
    · rw [List.take_take]
      rfl

/-- C5: With chunk size `S = 1000` and overlap `O = 100`, the chunker
produces `⌈(len − O)/(S − O)⌉` chunks for `len > S`, exactly one chunk for
`0 < len ≤ S`, and zero chunks for empty text; every chunk except possibly
the last has length exactly `S`; and each chunk's trailing `O` characters
equal the next chunk's leading `O` characters. -/
theorem C5_chunker_contract (text : List Char) :
    (splitTextSpec text).length = chunkCount text.length
  ∧ (∀ c ∈ (splitTextSpec text).dropLast, c.length = 1000)
  ∧ List.Chain' (fun a b => a.drop 900 = b.take 100) (splitTextSpec text) :=
  ⟨splitTextSpec_length text, splitTextSpec_dropLast_length text,
    splitTextSpec_overlap text⟩

/-- C5 witness: the chunker contract evaluated on concrete texts: a
3000-character text yields four chunks (the spec's Scenario A), an
1100-character text's non-last chunk has length exactly 1000, and empty
text yields zero chunks. -/
theorem C5_chunker_contract_witness :
    (splitTextSpec (List.replicate 3000 'a')).length = 4
  ∧ (splitTextSpec (List.replicate 1100 'b')).dropLast = [List.replicate 1000 'b']
  ∧ splitTextSpec ([] : List Char) = [] := by
  refine ⟨?_, ?_, ?_⟩
  · rw [(C5_chunker_contract (List.replicate 3000 'a')).1, List.length_replicate]
    decide
  · have e1 : splitTextSpec (List.replicate 1100 'b') =
        (List.replicate 1100 'b').take 1000 ::
          splitTextSpec ((List.replicate 1100 'b').drop 900) := by
      rw [splitTextSpec]
      rw [dif_neg (by rw [List.length_replicate]; omega),
          dif_neg (by rw [List.length_replicate]; omega)]
    have e2 : splitTextSpec (List.replicate 200 'b') = [List.replicate 200 'b'] := by
      rw [splitTextSpec]
      rw [dif_neg (by rw [List.length_replicate]; omega),
          dif_pos (by rw [List.length_replicate]; omega)]
    rw [e1, List.take_replicate, List.drop_replicate]
    norm_num [e2]
  · have h0 := (C5_chunker_contract ([] : List Char)).1
    rw [List.length_nil] at h0
    exact List.eq_nil_of_length_eq_zero (h0.trans rfl)

/-- Whether an adapter result is the adapter's own validation failure. -/
def isValidationFailure : Except EmbErr (List Vec) → Bool
  | .error (.validation _) => true
  | _ => false

/-- C10: the embedding adapter throws its validation error if and only if
`docs` is not an array; when `docs` is an array, every element is coerced
to a string and the coerced strings are passed to the provider in one call,
so the adapter's own outcome is exactly the provider's outcome (with
provider failures rethrown) and no element's type or content by itself
makes the adapter fail. -/
theorem C10_embedding_adapter
    (callProvider : List String → Except String (List Vec)) (docs : JSVal) :
    (isValidationFailure (embeddingModel callProvider docs) = true
        ↔ docs.isArray = false)
  ∧ (∀ xs, docs = JSVal.arr xs →
      embeddingModel callProvider docs =
        match callProvider (xs.map jsToString) with
        | .ok embs => Except.ok embs
        | .error e => Except.error (EmbErr.provider e))
  ∧ (∀ xs embs, docs = JSVal.arr xs →
      callProvider (xs.map jsToString) = Except.ok embs →
      embeddingModel callProvider docs = Except.ok embs) := by
  refine ⟨?_, ?_, ?_⟩
  · cases hA : docs.isArray with
    | false => simp [embeddingModel, hA, isValidationFailure]
    | true =>
      simp only [embeddingModel, hA]
      norm_num
      cases hp : callProvider (docs.elems.map jsToString) <;>
        simp [isValidationFailure]
  · intro xs hxs
    subst hxs
    simp only [embeddingModel, JSVal.isArray, JSVal.elems]
    norm_num
  · intro xs embs hxs hp
    subst hxs
    simp only [embeddingModel, JSVal.isArray, JSVal.elems]
    norm_num
    rw [hp]

/-- A sample embedding provider used by witnesses: returns one vector whose
single component is the number of documents it was sent. -/
def sampleProvider (ds : List String) : Except String (List Vec) :=
  Except.ok [[(ds.length : Int)]]

/-- C10 witness: a non-array argument is rejected with the validation
error, and an array of mixed-type elements is coerced and passed through,
the provider seeing all three coerced strings. -/
theorem C10_embedding_adapter_witness :
    isValidationFailure (embeddingModel sampleProvider (JSVal.num 3)) = true
  ∧ embeddingModel sampleProvider
      (JSVal.arr [JSVal.num 3, JSVal.null, JSVal.str "x"]) =
        Except.ok [[3]] := by
  constructor
  · exact (C10_embedding_adapter sampleProvider (JSVal.num 3)).1.mpr (by decide)
  · exact (C10_embedding_adapter sampleProvider
        (JSVal.arr [JSVal.num 3, JSVal.null, JSVal.str "x"])).2.2
      [JSVal.num 3, JSVal.null, JSVal.str "x"] [[3]] rfl (by rfl)

/-! ## The ingestion worker (`worker.js`) -/

/-- `list.map((x, idx) => f(idx, x))` starting at index `i`: the JavaScript
`Array.prototype.map` callback receives the element's index as its second
argument. -/
def mapIdxFrom (f : Nat → α → β) (i : Nat) : List α → List β
  | [] => []
  | a :: as => f i a :: mapIdxFrom f (i + 1) as

theorem mapIdxFrom_length (f : Nat → α → β) (i : Nat) (l : List α) :
    (mapIdxFrom f i l).length = l.length := by
  induction l generalizing i with
  | nil => rfl
  | cons a as ih => simp [mapIdxFrom, ih]

/-- The single Qdrant collection every job writes into
(`const collectionName = "pdf-with-chat"` in `worker.js`; the chat server
searches the same literal name). -/
def collectionName : String := "pdf-with-chat"

/-- An indexed point as `worker.js` builds it: `id: i + 1`, the embedding
vector, and a payload of `{ text: chunks[i], chunk_index: i, source:
data.path }`.  The `text` field is an `Option` because the JavaScript
`chunks[i]` is `undefined` when the embedding list is longer than the chunk
list. -/
structure QPoint where
  id : Nat
  vector : Vec
  text : Option String
  chunk_index : Nat
  source : String
deriving DecidableEq

/-- The `points` array of `worker.js`:
`documentEmbeddings.map((vec, i) => ({ id: i + 1, vector: vec, payload:
{ text: chunks[i], chunk_index: i, source: data.path } }))`. -/
def mkPoints (embs : List Vec) (chunks : List String) (path : String) :
    List QPoint :=
  mapIdxFrom (fun i vec =>
    { id := i + 1, vector := vec, text := chunks[i]?,
      chunk_index := i, source := path }) 0 embs

/-- The `try { getCollection } catch { createCollection }` block of
`worker.js`, as a function of the two call outcomes: a successful
existence check short-circuits to success; when the check fails, the
outcome of `createCollection` — including an "already exists" failure —
propagates unhandled. -/
def ensureCollection (getResult : Except String Unit)
    (createResult : Except String Unit) : Except String Unit :=
  match getResult with
  | .ok _ => .ok ()
  | .error _ => createResult

/-- Where one worker stands in the check-then-create sequence: about to call
`getCollection`, about to call `createCollection` (the check failed), done
successfully, or done with a propagated error. -/
inductive Phase
  | start
  | willCreate
  | doneOk
  | doneErr
deriving DecidableEq

/-- Shared state of two workers racing through the check-then-create block
for the same collection: whether the collection currently exists on the
Qdrant side, how many `createCollection` calls have succeeded, and each
worker's phase. -/
structure RaceState where
  collPresent : Bool
  created : Nat
  a : Phase
  b : Phase
deriving DecidableEq

/-- Both workers at the start, against an absent collection. -/
def initRace : RaceState := ⟨false, 0, .start, .start⟩

/-- One atomic step of one worker: `getCollection` succeeds exactly when
the collection is present (sending the worker straight to success,
mirroring the `try` branch); `createCollection` succeeds exactly when the
collection is absent — when another worker created it in between, the call
fails with "already exists", and because the `catch` block of `worker.js`
does not guard the `createCollection` call, that failure propagates
(`doneErr`). -/
def stepPhase (coll : Bool) (created : Nat) :
    Phase → Bool × Nat × Phase
  | .start => if coll then (coll, created, .doneOk) else (coll, created, .willCreate)
  | .willCreate =>
      if coll then (coll, created, .doneErr) else (true, created + 1, .doneOk)
  | ph => (coll, created, ph)

/-- Advance the scheduled worker (`true` = worker A, `false` = worker B). -/
def stepRace (s : RaceState) (who : Bool) : RaceState :=
  if who then
    let r := stepPhase s.collPresent s.created s.a
    { s with collPresent := r.1, created := r.2.1, a := r.2.2 }
  else
    let r := stepPhase s.collPresent s.created s.b
    { s with collPresent := r.1, created := r.2.1, b := r.2.2 }

/-- Run an interleaving schedule of the two workers. -/
def runRace (sched : List Bool) (s : RaceState) : RaceState :=
  sched.foldl stepRace s

/-- Invariant of the race: successful creations track collection presence,
and any finished worker (successful or failed) implies the collection is
present by then. -/
def raceInv (s : RaceState) : Prop :=
  s.created = (if s.collPresent then 1 else 0)
  ∧ (s.a = Phase.doneOk → s.collPresent = true)
  ∧ (s.a = Phase.doneErr → s.collPresent = true)
  ∧ (s.b = Phase.doneOk → s.collPresent = true)
  ∧ (s.b = Phase.doneErr → s.collPresent = true)

theorem stepRace_inv (s : RaceState) (who : Bool) (h : raceInv s) :
    raceInv (stepRace s who) := by
  obtain ⟨coll, created, a, b⟩ := s
  obtain ⟨h1, h2, h3, h4, h5⟩ := h
  cases who <;> [cases b; cases a] <;> cases coll <;>
    simp_all [stepRace, stepPhase, raceInv]

theorem runRace_inv (sched : List Bool) (s : RaceState) (h : raceInv s) :
    raceInv (runRace sched s) := by
  induction sched generalizing s with
  | nil => exact h
  | cons w rest ih => exact ih (stepRace s w) (stepRace_inv s w h)

/-- One external call performed by the ingestion worker, in the order the
calls appear in `worker.js`. -/
inductive WEffect
  | readFile (path : String)
  | parsePdf
  | embedCall (docs : List String)
  | getCollectionCall (name : String)
  | createCollectionCall (name : String) (size : Nat) (distance : String)
  | upsertCall (name : String) (wait : Bool) (points : List QPoint)
deriving DecidableEq

/-- The external capabilities the ingestion worker drives, supplied as pure
outcome functions: the file system read, the PDF text extractor, the
`CharacterTextSplitter` instance (external library), the embedding adapter,
and the three Qdrant calls. -/
structure WorkerDeps where
  readFile : String → Except String (List Nat)
  pdfText : List Nat → Except String String
  splitText : String → List String
  embed : List String → Except String (List Vec)
  getCollection : String → Except String Unit
  createCollection : String → Nat → String → Except String Unit
  upsert : String → List QPoint → Except String Unit

/-- One ingestion job of `worker.js`, for a job payload whose parsed
`data.path` is `path`: read the file, extract the PDF text, split it into
chunks, embed all chunks in one batch, ensure the collection exists
(`try getCollection catch createCollection`, where `createCollection`
receives `documentEmbeddings[0].length` as the vector size — a `TypeError`
when the embedding list is empty), build the points, and upsert them in a
single call with `wait: true`.  Any failure propagates (the outer `catch`
rethrows), and the returned trace lists the external calls made. -/
def runWorker (d : WorkerDeps) (path : String) :
    Except String Nat × List WEffect :=
  match d.readFile path with
  | .error e => (.error e, [.readFile path])
  | .ok bytes =>
  match d.pdfText bytes with
  | .error e => (.error e, [.readFile path, .parsePdf])
  | .ok text =>
  let chunks := d.splitText text
  match d.embed chunks with
  | .error e => (.error e, [.readFile path, .parsePdf, .embedCall chunks])
  | .ok embs =>
  match d.getCollection collectionName with
  | .ok _ =>
    let pts := mkPoints embs chunks path
    match d.upsert collectionName pts with
    | .error e =>
        (.error e, [.readFile path, .parsePdf, .embedCall chunks,
          .getCollectionCall collectionName,
          .upsertCall collectionName true pts])
    | .ok _ =>
        (.ok chunks.length, [.readFile path, .parsePdf, .embedCall chunks,
          .getCollectionCall collectionName,
          .upsertCall collectionName true pts])
  | .error _ =>
    match embs with
    | [] =>
        (.error "TypeError: documentEmbeddings[0] is undefined",
          [.readFile path, .parsePdf, .embedCall chunks,
            .getCollectionCall collectionName])
    | e0 :: _ =>
    match d.createCollection collectionName e0.length "Cosine" with
    | .error e =>
        (.error e, [.readFile path, .parsePdf, .embedCall chunks,
          .getCollectionCall collectionName,
          .createCollectionCall collectionName e0.length "Cosine"])
    | .ok _ =>
      let pts := mkPoints embs chunks path
      match d.upsert collectionName pts with
      | .error e =>
          (.error e, [.readFile path, .parsePdf, .embedCall chunks,
            .getCollectionCall collectionName,
            .createCollectionCall collectionName e0.length "Cosine",
            .upsertCall collectionName true pts])
      | .ok _ =>
          (.ok chunks.length, [.readFile path, .parsePdf, .embedCall chunks,
            .getCollectionCall collectionName,
            .createCollectionCall collectionName e0.length "Cosine",
            .upsertCall collectionName true pts])

/-- Whether an effect is a point-upsert call. -/
def WEffect.isUpsert : WEffect → Bool
  | .upsertCall _ _ _ => true
  | _ => false

theorem mapIdxFrom_getElemQ (f : Nat → α → β) (i j : Nat) (l : List α)
    (h : j < l.length) :
    (mapIdxFrom f i l)[j]? = some (f (i + j) (l.get ⟨j, h⟩)) := by
  induction l generalizing i j with
  | nil => exact absurd h (by simp)
  | cons a as ih =>
    cases j with
    | zero => simp [mapIdxFrom]
    | succ j' =>
      simp only [mapIdxFrom, List.getElem?_cons_succ, List.getElem_cons_succ]
      rw [ih]
      congr 2
      omega

/-- Point ids are the job-local 1-based counter: the `j`-th point gets id
`j + 1`, whatever the document. -/
theorem mkPoints_id (embs : List Vec) (chunks : List String) (path : String)
    (j : Nat) (h : j < embs.length) :
    ((mkPoints embs chunks path)[j]?).map QPoint.id = some (j + 1) := by
  unfold mkPoints
  rw [mapIdxFrom_getElemQ _ _ _ _ h]
  simp

/-- C1 fails on the code: every job writes into the same constant
collection, and each job restarts its point-id counter at 1, so the first
chunks of two different documents — distinct chunks with distinct payload
texts and sources — are both stored under point id 1.  Evaluated here at a
concrete failing input: document `uploads/a.pdf` with one chunk and
document `uploads/b.pdf` with one chunk. -/
theorem C1_point_id_collision :
    collectionName = "pdf-with-chat"
  ∧ mkPoints [[10]] ["first chunk of document A"] "uploads/a.pdf" =
      [{ id := 1, vector := [10], text := some "first chunk of document A",
         chunk_index := 0, source := "uploads/a.pdf" }]
  ∧ mkPoints [[20]] ["first chunk of document B"] "uploads/b.pdf" =
      [{ id := 1, vector := [20], text := some "first chunk of document B",
         chunk_index := 0, source := "uploads/b.pdf" }]
  ∧ (mkPoints [[10]] ["first chunk of document A"] "uploads/a.pdf").map
      QPoint.id =
    (mkPoints [[20]] ["first chunk of document B"] "uploads/b.pdf").map
      QPoint.id
  ∧ (mkPoints [[10]] ["first chunk of document A"] "uploads/a.pdf").map
      QPoint.text ≠
    (mkPoints [[20]] ["first chunk of document B"] "uploads/b.pdf").map
      QPoint.text := by
  refine ⟨rfl, by decide, by decide, by decide, by decide⟩

/-- C2 fails on the code in the concurrent case: in the interleaving where
both workers' `getCollection` checks run before either `createCollection`,
the losing worker's `createCollection` fails and — because the `catch`
block does not guard it — the failure propagates: the worker ends in
`doneErr` rather than treating "already exists" as success. -/
theorem C2_race_loser_fails :
    (runRace [true, false, true, false] initRace).b = Phase.doneErr
  ∧ (runRace [true, false, true, false] initRace).a = Phase.doneOk
  ∧ (runRace [true, false, true, false] initRace).created = 1
  ∧ ensureCollection (Except.error "Not found") (Except.error "already exists")
      = Except.error "already exists" :=
  ⟨by decide, by decide, by decide, rfl⟩

/-- C2 as amended: the sequential half of the claim holds — when the
existence check succeeds, `ensureCollection` succeeds regardless of the
(unreached) creation outcome — and in every interleaving of the concurrent
race at most one collection is ever created, with a worker failing only
once the collection already exists (so the only propagated failure is the
loser's "already exists" error; that error is NOT swallowed). -/
theorem C2_ensure_idempotent_amended :
    (∀ createResult, ensureCollection (Except.ok ()) createResult =
        Except.ok ())
  ∧ (∀ sched : List Bool,
        (runRace sched initRace).created ≤ 1
      ∧ ((runRace sched initRace).a = Phase.doneErr →
          (runRace sched initRace).collPresent = true)
      ∧ ((runRace sched initRace).b = Phase.doneErr →
          (runRace sched initRace).collPresent = true)) := by
  constructor
  · intro r
    rfl
  · intro sched
    have h := runRace_inv sched initRace (by simp [raceInv, initRace])
    obtain ⟨h1, _, h3, _, h5⟩ := h
    refine ⟨?_, h3, h5⟩
    rw [h1]
    split <;> omega

/-- C2 amended witness: the amended statement evaluated on the concrete
racing schedule. -/
theorem C2_ensure_idempotent_amended_witness :
    ensureCollection (Except.ok ()) (Except.error "already exists") =
      Except.ok ()
  ∧ (runRace [true, false, true, false] initRace).created ≤ 1
  ∧ (runRace [true, false, true, false] initRace).collPresent = true :=
  ⟨C2_ensure_idempotent_amended.1 (Except.error "already exists"),
   (C2_ensure_idempotent_amended.2 [true, false, true, false]).1,
   (C2_ensure_idempotent_amended.2 [true, false, true, false]).2.2 (by decide)⟩

/-- C7: the worker performs at most one upsert per job, and any upsert call
it performs (i) sets `wait: true`, (ii) targets the fixed collection,
(iii) carries exactly the points built from a successful embedding of the
job's full chunk list, and (iv) is the final call of the trace, strictly
after the embedding call.  In particular, when the embedding step fails no
upsert is ever performed, so no partial set of the job's points is left in
the index. -/
theorem C7_upsert_only_after_embed (d : WorkerDeps) (path : String) :
    ((runWorker d path).2.countP (fun e => e.isUpsert)) ≤ 1
  ∧ ∀ name wait pts,
      WEffect.upsertCall name wait pts ∈ (runWorker d path).2 →
      wait = true ∧ name = collectionName ∧
      ∃ chunks embs pre,
        d.embed chunks = Except.ok embs ∧
        pts = mkPoints embs chunks path ∧
        (runWorker d path).2 = pre ++ [WEffect.upsertCall name wait pts] ∧
        WEffect.embedCall chunks ∈ pre := by
  rcases hr : d.readFile path with e | bytes <;> simp only [runWorker, hr]
  · exact ⟨by simp [WEffect.isUpsert],
      fun name wait pts hmem => by simp at hmem⟩
  · rcases hp : d.pdfText bytes with e | text <;> simp only [hp]
    · exact ⟨by simp [WEffect.isUpsert],
        fun name wait pts hmem => by simp at hmem⟩
    · rcases he : d.embed (d.splitText text) with e | embs <;> simp only [he]
      · exact ⟨by simp [WEffect.isUpsert],
          fun name wait pts hmem => by simp at hmem⟩
      · rcases hg : d.getCollection collectionName with e' | u <;>
          simp only [hg]
        · rcases hembs : embs with _ | ⟨e0, erest⟩
          · simp only []
            exact ⟨by simp [WEffect.isUpsert],
              fun name wait pts hmem => by simp at hmem⟩
          · subst hembs
            simp only []
            rcases hc : d.createCollection collectionName e0.length "Cosine"
                with e'' | u' <;> simp only [hc]
            · exact ⟨by simp [WEffect.isUpsert],
                fun name wait pts hmem => by simp at hmem⟩
            · rcases hu : d.upsert collectionName
                  (mkPoints (e0 :: erest) (d.splitText text) path)
                  with e''' | u'' <;> simp only [hu] <;>
              · refine ⟨by simp [WEffect.isUpsert], ?_⟩
                intro name wait pts hmem
                simp only [List.mem_cons, List.not_mem_nil, or_false] at hmem
                rcases hmem with h | h | h | h | h | h
                · exact WEffect.noConfusion h
                · exact WEffect.noConfusion h
                · exact WEffect.noConfusion h
                · exact WEffect.noConfusion h
                · exact WEffect.noConfusion h
                · injection h with h1 h2 h3
                  subst h1
                  subst h2
                  subst h3
                  refine ⟨rfl, rfl, d.splitText text, e0 :: erest,
                    [WEffect.readFile path, WEffect.parsePdf,
                     WEffect.embedCall (d.splitText text),
                     WEffect.getCollectionCall collectionName,
                     WEffect.createCollectionCall collectionName
                       e0.length "Cosine"], he, rfl, rfl, by simp⟩
        · rcases hu : d.upsert collectionName
              (mkPoints embs (d.splitText text) path)
              with e''' | u'' <;> simp only [hu] <;>
          · refine ⟨by simp [WEffect.isUpsert], ?_⟩
            intro name wait pts hmem
            simp only [List.mem_cons, List.not_mem_nil, or_false] at hmem
            rcases hmem with h | h | h | h | h
            · exact WEffect.noConfusion h
            · exact WEffect.noConfusion h
            · exact WEffect.noConfusion h
            · exact WEffect.noConfusion h
            · injection h with h1 h2 h3
              subst h1
              subst h2
              subst h3
              refine ⟨rfl, rfl, d.splitText text, embs,
                [WEffect.readFile path, WEffect.parsePdf,
                 WEffect.embedCall (d.splitText text),
                 WEffect.getCollectionCall collectionName], he, rfl, rfl,
                by simp⟩

/-- Concrete worker capabilities for the C7 witness: every call succeeds,
the splitter returns the whole text as one chunk, and the embedder maps a
document to the one-component vector holding its length. -/
def sampleWorkerDeps : WorkerDeps where
  readFile := fun _ => Except.ok [37]
  pdfText := fun _ => Except.ok "hello world"
  splitText := fun t => [t]
  embed := fun ds => Except.ok (ds.map fun doc => [(doc.length : Int)])
  getCollection := fun _ => Except.ok ()
  createCollection := fun _ _ _ => Except.ok ()
  upsert := fun _ _ => Except.ok ()

/-- C7 witness: on a fully successful concrete job the trace contains the
single wait-for-durability upsert, performed after the embedding call, and
the theorem's conclusion holds at it. -/
theorem C7_upsert_only_after_embed_witness :
    (runWorker sampleWorkerDeps "uploads/a.pdf").2.countP
        (fun e => e.isUpsert) ≤ 1
  ∧ (WEffect.upsertCall collectionName true
        (mkPoints [[11]] ["hello world"] "uploads/a.pdf") ∈
      (runWorker sampleWorkerDeps "uploads/a.pdf").2)
  ∧ (true = true ∧ collectionName = collectionName ∧
      ∃ chunks embs pre,
        sampleWorkerDeps.embed chunks = Except.ok embs ∧
        mkPoints [[11]] ["hello world"] "uploads/a.pdf" =
          mkPoints embs chunks "uploads/a.pdf" ∧
        (runWorker sampleWorkerDeps "uploads/a.pdf").2 =
          pre ++ [WEffect.upsertCall collectionName true
            (mkPoints [[11]] ["hello world"] "uploads/a.pdf")] ∧
        WEffect.embedCall chunks ∈ pre) := by
  have hmem : WEffect.upsertCall collectionName true
      (mkPoints [[11]] ["hello world"] "uploads/a.pdf") ∈
      (runWorker sampleWorkerDeps "uploads/a.pdf").2 := by decide
  exact ⟨(C7_upsert_only_after_embed sampleWorkerDeps "uploads/a.pdf").1,
    hmem,
    (C7_upsert_only_after_embed sampleWorkerDeps "uploads/a.pdf").2
      collectionName true _ hmem⟩

/-! ## The retrieval-augmented query engine (`/chat` and `/chat/stream`) -/

/-- JavaScript `String.prototype.trim()`, as used by the endpoints'
`query.trim() === ''` check: strip leading and trailing whitespace. -/
def jsTrim (s : String) : String :=
  ⟨((s.data.dropWhile Char.isWhitespace).reverse.dropWhile
      Char.isWhitespace).reverse⟩

/-- One message of a Groq chat completion request. -/
structure ChatMessage where
  role : String
  content : String
deriving DecidableEq

/-- The decoding parameters the endpoints pass to
`groq.chat.completions.create` (numeric literals kept verbatim as they
appear in the source). -/
structure GenParams where
  model : String
  temperature : String
  max_tokens : Nat
  top_p : Option String
  stream : Bool
deriving DecidableEq

/-- One Qdrant search hit as the endpoints consume it: the stored chunk
text and source from the payload, plus the similarity score (numerically
uninterpreted by the code, modelled as `Int`). -/
structure SearchRes where
  text : String
  score : Int
  source : String
deriving DecidableEq

/-- A JSON leaf value appearing in the `/chat` response body. -/
inductive JVal
  | str (s : String)
  | num (n : Int)
deriving DecidableEq

/-- One external call performed by a query endpoint. -/
inductive ChatEffect
  | embedCall (docs : List String)
  | searchCall (coll : String) (vector : Vec) (limit : Nat)
      (withPayload : Bool)
  | generateCall (messages : List ChatMessage) (params : GenParams)
  | streamGenerateCall (messages : List ChatMessage) (params : GenParams)
deriving DecidableEq

/-- The external capabilities of the query endpoints: the embedding
adapter, the Qdrant search, and the Groq completion in batch mode
(returning `choices[0]?.message?.content`, possibly absent) and in
streaming mode (returning the fragment list the `for await` loop sees). -/
structure QueryDeps where
  embed : String → Except String (List Vec)
  search : Vec → Except String (List SearchRes)
  complete : List ChatMessage → GenParams → Except String (Option String)
  fragments : List ChatMessage → GenParams → Except String (List String)

/-- The labelled context lines:
`searchResults.map((result, idx) => "[Chunk " + (idx+1) + "] " + text)`. -/
def contextLines (results : List SearchRes) : List String :=
  mapIdxFrom (fun idx r => "[Chunk " ++ toString (idx + 1) ++ "] " ++ r.text)
    0 results

/-- The grounding context block: the labelled lines joined with blank
lines (`.join("\n\n")`). -/
def buildContext (results : List SearchRes) : String :=
  String.intercalate "\n\n" (contextLines results)

/-- The fixed instruction preamble of the `/chat` system prompt (the text
before the interpolated context). -/
def batchPromptHeader : String :=
  "You are a helpful AI assistant that answers questions based STRICTLY on the provided PDF document context. \n\nCRITICAL RULES:\n1. ONLY use information from the context below to answer questions\n2. If the answer is not in the context, say \"I cannot find this information in the provided document\"\n3. DO NOT use your general knowledge or make up information\n4. Quote relevant parts from the context when answering\n5. If the context is insufficient, ask for clarification or state what information is missing\n6. Be concise and accurate\n\nCONTEXT FROM PDF DOCUMENT:\n"

/-- The fixed closing reminder of the `/chat` system prompt (the text
after the interpolated context). -/
def batchPromptFooter : String :=
  "\n\nRemember: Your answer must be based ONLY on the context above. If you cannot answer from the context, clearly state that."

/-- The fixed instruction preamble of the `/chat/stream` system prompt:
it lacks rule 5 ("ask for clarification") of the batch preamble, and the
streaming prompt has no closing reminder at all. -/
def streamPromptHeader : String :=
  "You are a helpful AI assistant that answers questions based STRICTLY on the provided PDF document context. \n\nCRITICAL RULES:\n1. ONLY use information from the context below to answer questions\n2. If the answer is not in the context, say \"I cannot find this information in the provided document\"\n3. DO NOT use your general knowledge or make up information\n4. Quote relevant parts from the context when answering\n5. Be concise and accurate\n\nCONTEXT FROM PDF DOCUMENT:\n"

/-- The `/chat` system prompt for a given context block. -/
def batchSystemPrompt (context : String) : String :=
  batchPromptHeader ++ context ++ batchPromptFooter

/-- The `/chat/stream` system prompt for a given context block. -/
def streamSystemPrompt (context : String) : String :=
  streamPromptHeader ++ context

/-- The two-message list both endpoints send: the grounded prompt as the
system instruction, the raw query as the user message. -/
def chatMessages (systemPrompt query : String) : List ChatMessage :=
  [{ role := "system", content := systemPrompt },
   { role := "user", content := query }]

/-- `/chat` decoding parameters: `model: "llama-3.3-70b-versatile",
temperature: 0.3, max_tokens: 2048, top_p: 0.9, stream: false`. -/
def batchParams : GenParams :=
  { model := "llama-3.3-70b-versatile", temperature := "0.3",
    max_tokens := 2048, top_p := some "0.9", stream := false }

/-- `/chat/stream` decoding parameters: same model, temperature and token
bound, no `top_p`, `stream: true`. -/
def streamParams : GenParams :=
  { model := "llama-3.3-70b-versatile", temperature := "0.3",
    max_tokens := 2048, top_p := none, stream := true }

/-- The canned `/chat` zero-result answer. -/
def noContextAnswer : String :=
  "I couldn't find any relevant information in the uploaded PDF to answer your question. Please make sure you've uploaded a PDF document first."

/-- The truncated chunk preview:
`result.payload.text.substring(0, 200) + "..."`. -/
def previewText (t : String) : String :=
  (⟨t.data.take 200⟩ : String) ++ "..."

/-- One entry of the `/chat` response's `sources` array, as the key-value
pairs the source object literal writes, in order: note the preview field
is keyed `text`, not `text_preview`. -/
def mkSourceEntry (idx : Nat) (r : SearchRes) : List (String × JVal) :=
  [("chunk_index", JVal.num (idx + 1)),
   ("text", JVal.str (previewText r.text)),
   ("score", JVal.num r.score),
   ("source", JVal.str r.source)]

/-- The `sources` array of the `/chat` response:
`searchResults.map((result, idx) => ({...}))`. -/
def mkSources (results : List SearchRes) : List (List (String × JVal)) :=
  mapIdxFrom mkSourceEntry 0 results

/-- `chatCompletion.choices[0]?.message?.content || "No response
generated"`: the fallback fires on an absent and on an empty content. -/
def answerFrom (content : Option String) : String :=
  match content with
  | some s => if s = "" then "No response generated" else s
  | none => "No response generated"

/-- The `/chat` endpoint's observable outcome: a 400 validation rejection,
a 200 `{ answer, sources }` body, or a 500 `{ error, details }` body. -/
inductive ChatResponse
  | badRequest (error : String)
  | ok (answer : String) (sources : List (List (String × JVal)))
  | serverError (error : String) (details : String)
deriving DecidableEq

/-- The `/chat` endpoint of `worker.js` (the second, server file): validate
the query (`!query || query.trim() === ''` → 400 before any external
call), embed the query as a single-item batch, throw when the embedding
list is empty, search the fixed collection for the top 5 with payload,
short-circuit to the canned answer with empty sources on zero results,
otherwise assemble the grounded prompt and call Groq; any thrown error is
caught and surfaced as a 500 with the message as `details`. -/
def chatHandler (d : QueryDeps) (query? : Option String) :
    ChatResponse × List ChatEffect :=
  match query? with
  | none => (.badRequest "Query is required", [])
  | some query =>
    if query = "" ∨ jsTrim query = "" then
      (.badRequest "Query is required", [])
    else
      match d.embed query with
      | .error e =>
          (.serverError "Failed to process chat request" e,
            [.embedCall [query]])
      | .ok queryEmbedding =>
        match queryEmbedding with
        | [] =>
            (.serverError "Failed to process chat request"
              "Failed to generate query embedding", [.embedCall [query]])
        | v :: _ =>
          match d.search v with
          | .error e =>
              (.serverError "Failed to process chat request" e,
                [.embedCall [query], .searchCall collectionName v 5 true])
          | .ok searchResults =>
            if searchResults.length = 0 then
              (.ok noContextAnswer [],
                [.embedCall [query], .searchCall collectionName v 5 true])
            else
              match d.complete
                  (chatMessages (batchSystemPrompt (buildContext
                    searchResults)) query) batchParams with
              | .error e =>
                  (.serverError "Failed to process chat request" e,
                    [.embedCall [query],
                     .searchCall collectionName v 5 true,
                     .generateCall (chatMessages (batchSystemPrompt
                       (buildContext searchResults)) query) batchParams])
              | .ok content =>
                  (.ok (answerFrom content) (mkSources searchResults),
                    [.embedCall [query],
                     .searchCall collectionName v 5 true,
                     .generateCall (chatMessages (batchSystemPrompt
                       (buildContext searchResults)) query) batchParams])

/-- One server-sent event written by `/chat/stream`: a `{content}`
fragment, the zero-result `{done: true, answer}` event, the terminal
`{done: true}` event, or an in-band `{error}` event. -/
inductive StreamEvent
  | contentEv (s : String)
  | doneAnswer (answer : String)
  | doneEv
  | errorEv (msg : String)
deriving DecidableEq

/-- The `/chat/stream` endpoint's observable outcome: a 400 validation
rejection (before the SSE headers are committed), or the ordered list of
events written to the committed stream. -/
inductive StreamOutcome
  | badRequest (error : String)
  | events (evs : List StreamEvent)
deriving DecidableEq

/-- The `/chat/stream` endpoint of `worker.js`: same validation, embedding
and search as `/chat`; zero results short-circuit to a single
`{done: true, answer: "No relevant context found."}` event; otherwise the
streaming Groq call's fragments are forwarded in arrival order, skipping
falsy (empty) fragments, followed by `{done: true}`.  Errors after the
headers are committed are written as in-band `{error}` events.  (When the
embedding list is empty, `queryEmbedding[0]` is `undefined` and the Qdrant
client call fails; this surfaces as an in-band error event.) -/
def chatStreamHandler (d : QueryDeps) (query? : Option String) :
    StreamOutcome × List ChatEffect :=
  match query? with
  | none => (.badRequest "Query is required", [])
  | some query =>
    if query = "" ∨ jsTrim query = "" then
      (.badRequest "Query is required", [])
    else
      match d.embed query with
      | .error e => (.events [.errorEv e], [.embedCall [query]])
      | .ok queryEmbedding =>
        match queryEmbedding with
        | [] =>
            (.events [.errorEv "Cannot read properties of undefined"],
              [.embedCall [query]])
        | v :: _ =>
          match d.search v with
          | .error e =>
              (.events [.errorEv e],
                [.embedCall [query], .searchCall collectionName v 5 true])
          | .ok searchResults =>
            if searchResults.length = 0 then
              (.events [.doneAnswer "No relevant context found."],
                [.embedCall [query], .searchCall collectionName v 5 true])
            else
              match d.fragments
                  (chatMessages (streamSystemPrompt (buildContext
                    searchResults)) query) streamParams with
              | .error e =>
                  (.events [.errorEv e],
                    [.embedCall [query],
                     .searchCall collectionName v 5 true,
                     .streamGenerateCall (chatMessages (streamSystemPrompt
                       (buildContext searchResults)) query) streamParams])
              | .ok frags =>
                  (.events ((frags.filter (fun s => !(s == ""))).map
                      StreamEvent.contentEv ++ [.doneEv]),
                    [.embedCall [query],
                     .searchCall collectionName v 5 true,
                     .streamGenerateCall (chatMessages (streamSystemPrompt
                       (buildContext searchResults)) query) streamParams])

/-- The answer text of a successful `/chat` response. -/
def ChatResponse.answerOf : ChatResponse → Option String
  | .ok a _ => some a
  | _ => none

/-- The `sources` array of a successful `/chat` response. -/
def ChatResponse.sourcesOf : ChatResponse → List (List (String × JVal))
  | .ok _ s => s
  | _ => []

/-- Concatenation of the `{content}` fragments of an event list. -/
def streamedText : List StreamEvent → String
  | [] => ""
  | .contentEv s :: rest => s ++ streamedText rest
  | _ :: rest => streamedText rest

/-- Concatenation of the streamed fragments of a stream outcome. -/
def StreamOutcome.concatText : StreamOutcome → String
  | .badRequest _ => ""
  | .events evs => streamedText evs

theorem chatHandler_zero_results (d : QueryDeps) (q : String) (v : Vec)
    (vs : List Vec) (hq : jsTrim q ≠ "")
    (he : d.embed q = Except.ok (v :: vs))
    (hs : d.search v = Except.ok []) :
    chatHandler d (some q) =
      (ChatResponse.ok noContextAnswer [],
        [ChatEffect.embedCall [q],
         ChatEffect.searchCall collectionName v 5 true]) := by
  have hne : ¬(q = "" ∨ jsTrim q = "") := by
    rintro (rfl | h)
    · exact hq (by decide)
    · exact hq h
  simp only [chatHandler]
  rw [if_neg hne]
  simp only [he, hs, List.length_nil]
  rfl

theorem chatStreamHandler_zero_results (d : QueryDeps) (q : String) (v : Vec)
    (vs : List Vec) (hq : jsTrim q ≠ "")
    (he : d.embed q = Except.ok (v :: vs))
    (hs : d.search v = Except.ok []) :
    chatStreamHandler d (some q) =
      (StreamOutcome.events
          [StreamEvent.doneAnswer "No relevant context found."],
        [ChatEffect.embedCall [q],
         ChatEffect.searchCall collectionName v 5 true]) := by
  have hne : ¬(q = "" ∨ jsTrim q = "") := by
    rintro (rfl | h)
    · exact hq (by decide)
    · exact hq h
  simp only [chatStreamHandler]
  rw [if_neg hne]
  simp only [he, hs, List.length_nil]
  rfl

/-- C3: when the vector search returns zero results, the batch endpoint
returns the canned no-relevant-information answer with an empty sources
list as a successful (non-error) response, the streaming endpoint writes
its single canned done-event, and on neither path is the generation
provider invoked. -/
theorem C3_zero_results_canned (d : QueryDeps) (q : String) (v : Vec)
    (vs : List Vec) (hq : jsTrim q ≠ "")
    (he : d.embed q = Except.ok (v :: vs))
    (hs : d.search v = Except.ok []) :
    (chatHandler d (some q)).1 = ChatResponse.ok noContextAnswer []
  ∧ (∀ m p, ChatEffect.generateCall m p ∉ (chatHandler d (some q)).2)
  ∧ (chatStreamHandler d (some q)).1 =
      StreamOutcome.events
        [StreamEvent.doneAnswer "No relevant context found."]
  ∧ (∀ m p,
      ChatEffect.streamGenerateCall m p ∉ (chatStreamHandler d (some q)).2) := by
  rw [chatHandler_zero_results d q v vs hq he hs,
    chatStreamHandler_zero_results d q v vs hq he hs]
  refine ⟨rfl, ?_, rfl, ?_⟩
  · intro m p hmem
    simp at hmem
  · intro m p hmem
    simp at hmem

/-- Concrete query capabilities for the C3 witness: the embedder returns
one vector and the search finds nothing. -/
def emptyIndexDeps : QueryDeps where
  embed := fun _ => Except.ok [[1]]
  search := fun _ => Except.ok []
  complete := fun _ _ => Except.ok (some "unreachable")
  fragments := fun _ _ => Except.ok ["unreachable"]

/-- C3 witness: the zero-result behaviour evaluated against a concrete
empty index. -/
theorem C3_zero_results_canned_witness :
    jsTrim "What is the refund policy?" ≠ ""
  ∧ (chatHandler emptyIndexDeps (some "What is the refund policy?")).1 =
      ChatResponse.ok noContextAnswer []
  ∧ (chatStreamHandler emptyIndexDeps
        (some "What is the refund policy?")).1 =
      StreamOutcome.events
        [StreamEvent.doneAnswer "No relevant context found."] := by
  have h := C3_zero_results_canned emptyIndexDeps
    "What is the refund policy?" [1] [] (by decide) rfl rfl
  exact ⟨by decide, h.1, h.2.2.1⟩

/-- `!query || query.trim() === ''`: the endpoints' shared validation
predicate on the request body's `query` field (`none` models an absent
field; for a present string, JavaScript falsiness is emptiness). -/
def invalidQuery : Option String → Bool
  | none => true
  | some q => q == "" || jsTrim q == ""

/-- C4: both endpoints reject a request exactly when the query is absent,
empty, or whitespace-only — with the 400 validation response and an empty
call trace, so no embedding or search call has been made — and never
reject a query that trims to something non-empty. -/
theorem C4_query_validation (d : QueryDeps) (query? : Option String) :
    ((chatHandler d query?).1 = ChatResponse.badRequest "Query is required"
        ↔ invalidQuery query? = true)
  ∧ ((chatStreamHandler d query?).1 =
        StreamOutcome.badRequest "Query is required"
        ↔ invalidQuery query? = true)
  ∧ (invalidQuery query? = true →
      (chatHandler d query?).2 = [] ∧ (chatStreamHandler d query?).2 = []) := by
  rcases query? with _ | q
  · exact ⟨by simp [chatHandler, invalidQuery],
      by simp [chatStreamHandler, invalidQuery], fun _ => ⟨rfl, rfl⟩⟩
  · by_cases hv : q = "" ∨ jsTrim q = ""
    · have hb : invalidQuery (some q) = true := by
        rcases hv with rfl | h
        · rfl
        · simp [invalidQuery, h]
      have hc : chatHandler d (some q) =
          (ChatResponse.badRequest "Query is required", []) := by
        simp only [chatHandler]
        rw [if_pos hv]
      have hcs : chatStreamHandler d (some q) =
          (StreamOutcome.badRequest "Query is required", []) := by
        simp only [chatStreamHandler]
        rw [if_pos hv]
      rw [hb, hc, hcs]
      exact ⟨by simp, by simp, fun _ => ⟨rfl, rfl⟩⟩
    · have hinv : invalidQuery (some q) = false := by
        push_neg at hv
        simp [invalidQuery, hv.1, hv.2]
      rw [hinv]
      refine ⟨iff_of_false ?_ (by simp), iff_of_false ?_ (by simp),
        fun h => absurd h (by simp)⟩
      · intro hres
        revert hres
        simp only [chatHandler]
        rw [if_neg hv]
        rcases he : d.embed q with e | qe <;> simp only [he]
        · simp
        · rcases qe with _ | ⟨v, vs⟩ <;> simp only []
          · simp
          · rcases hs : d.search v with e | results <;> simp only [hs]
            · simp
            · by_cases hz : results.length = 0
              · rw [if_pos hz]
                simp
              · rw [if_neg hz]
                rcases hg : d.complete (chatMessages (batchSystemPrompt
                    (buildContext results)) q) batchParams with e | c <;>
                  simp only [hg] <;> simp
      · intro hres
        revert hres
        simp only [chatStreamHandler]
        rw [if_neg hv]
        rcases he : d.embed q with e | qe <;> simp only [he]
        · simp
        · rcases qe with _ | ⟨v, vs⟩ <;> simp only []
          · simp
          · rcases hs : d.search v with e | results <;> simp only [hs]
            · simp
            · by_cases hz : results.length = 0
              · rw [if_pos hz]
                simp
              · rw [if_neg hz]
                rcases hg : d.fragments (chatMessages (streamSystemPrompt
                    (buildContext results)) q) streamParams with e | frags <;>
                  simp only [hg] <;> simp

/-- C4 witness: concrete instances — the absent, empty, and
whitespace-only queries are rejected with empty traces, while a concrete
non-empty query is not rejected. -/
theorem C4_query_validation_witness :
    ((chatHandler emptyIndexDeps none).1 =
        ChatResponse.badRequest "Query is required")
  ∧ ((chatHandler emptyIndexDeps (some "")).1 =
        ChatResponse.badRequest "Query is required")
  ∧ ((chatStreamHandler emptyIndexDeps (some "   ")).1 =
        StreamOutcome.badRequest "Query is required")
  ∧ (chatHandler emptyIndexDeps (some " \t ")).2 = []
  ∧ ¬((chatHandler emptyIndexDeps (some "hi")).1 =
        ChatResponse.badRequest "Query is required") := by
  refine ⟨?_, ?_, ?_, ?_, ?_⟩
  · exact (C4_query_validation emptyIndexDeps none).1.mpr (by decide)
  · exact (C4_query_validation emptyIndexDeps (some "")).1.mpr (by decide)
  · exact (C4_query_validation emptyIndexDeps (some "   ")).2.1.mpr (by decide)
  · exact ((C4_query_validation emptyIndexDeps (some " \t ")).2.2
      (by decide)).1
  · intro hres
    exact absurd ((C4_query_validation emptyIndexDeps (some "hi")).1.mp hres)
      (by decide)

theorem chatHandler_success_shape (d : QueryDeps) (q : String) (v : Vec)
    (vs : List Vec) (results : List SearchRes) (hq : jsTrim q ≠ "")
    (he : d.embed q = Except.ok (v :: vs))
    (hs : d.search v = Except.ok results) (hr : results.length ≠ 0) :
    (chatHandler d (some q)).2 =
      [ChatEffect.embedCall [q],
       ChatEffect.searchCall collectionName v 5 true,
       ChatEffect.generateCall
         (chatMessages (batchSystemPrompt (buildContext results)) q)
         batchParams]
  ∧ (chatHandler d (some q)).1 =
      (match d.complete
          (chatMessages (batchSystemPrompt (buildContext results)) q)
          batchParams with
       | .error e => ChatResponse.serverError "Failed to process chat request" e
       | .ok content =>
           ChatResponse.ok (answerFrom content) (mkSources results)) := by
  have hne : ¬(q = "" ∨ jsTrim q = "") := by
    rintro (rfl | h)
    · exact hq (by decide)
    · exact hq h
  simp only [chatHandler]
  rw [if_neg hne]
  simp only [he, hs]
  rw [if_neg hr]
  rcases hc : d.complete
      (chatMessages (batchSystemPrompt (buildContext results)) q)
      batchParams with e | c <;> simp [hc]

theorem chatStreamHandler_success_shape (d : QueryDeps) (q : String)
    (v : Vec) (vs : List Vec) (results : List SearchRes)
    (hq : jsTrim q ≠ "") (he : d.embed q = Except.ok (v :: vs))
    (hs : d.search v = Except.ok results) (hr : results.length ≠ 0) :
    (chatStreamHandler d (some q)).2 =
      [ChatEffect.embedCall [q],
       ChatEffect.searchCall collectionName v 5 true,
       ChatEffect.streamGenerateCall
         (chatMessages (streamSystemPrompt (buildContext results)) q)
         streamParams]
  ∧ (chatStreamHandler d (some q)).1 =
      (match d.fragments
          (chatMessages (streamSystemPrompt (buildContext results)) q)
          streamParams with
       | .error e => StreamOutcome.events [StreamEvent.errorEv e]
       | .ok frags =>
           StreamOutcome.events
             ((frags.filter (fun s => !(s == ""))).map
               StreamEvent.contentEv ++ [StreamEvent.doneEv])) := by
  have hne : ¬(q = "" ∨ jsTrim q = "") := by
    rintro (rfl | h)
    · exact hq (by decide)
    · exact hq h
  simp only [chatStreamHandler]
  rw [if_neg hne]
  simp only [he, hs]
  rw [if_neg hr]
  rcases hc : d.fragments
      (chatMessages (streamSystemPrompt (buildContext results)) q)
      streamParams with e | frags <;> simp [hc]

/-- C6: with a non-empty result list the batch endpoint invokes the
generation provider with exactly two messages — the grounded prompt as the
system instruction and the raw query as the user message — where the
grounded prompt is the fixed preamble, then the context block, then the
fixed reminder, and the context block joins the rank-labelled chunks with
blank lines: line `j` (0-based) is `"[Chunk " ++ (j+1) ++ "] "` followed
by the text of the `j`-th search result, preserving the search order. -/
theorem C6_context_assembly (d : QueryDeps) (q : String) (v : Vec)
    (vs : List Vec) (results : List SearchRes) (hq : jsTrim q ≠ "")
    (he : d.embed q = Except.ok (v :: vs))
    (hs : d.search v = Except.ok results) (hr : results.length ≠ 0) :
    (ChatEffect.generateCall
        (chatMessages (batchSystemPrompt (buildContext results)) q)
        batchParams ∈ (chatHandler d (some q)).2)
  ∧ chatMessages (batchSystemPrompt (buildContext results)) q =
      [{ role := "system",
         content :=
           batchPromptHeader ++ buildContext results ++ batchPromptFooter },
       { role := "user", content := q }]
  ∧ buildContext results =
      String.intercalate "\n\n" (contextLines results)
  ∧ (contextLines results).length = results.length
  ∧ ∀ j (h : j < results.length),
      (contextLines results)[j]? =
        some ("[Chunk " ++ toString (j + 1) ++ "] "
          ++ (results.get ⟨j, h⟩).text) := by
  refine ⟨?_, rfl, rfl, mapIdxFrom_length _ _ _, ?_⟩
  · rw [(chatHandler_success_shape d q v vs results hq he hs hr).1]
    simp
  · intro j h
    have := mapIdxFrom_getElemQ
      (fun idx r => "[Chunk " ++ toString (idx + 1) ++ "] " ++ r.text)
      0 j results h
    simpa [contextLines] using this

/-- Concrete query capabilities for the success-path witnesses: one query
vector, two search hits in descending-score order, and stub generation. -/
def twoHitDeps : QueryDeps where
  embed := fun _ => Except.ok [[1]]
  search := fun _ => Except.ok
    [{ text := "alpha chunk", score := 9, source := "uploads/a.pdf" },
     { text := "beta chunk", score := 7, source := "uploads/a.pdf" }]
  complete := fun _ _ => Except.ok (some "grounded answer")
  fragments := fun _ _ => Except.ok ["grounded ", "answer"]

/-- C6 witness: with two concrete hits, the generation call in the trace
carries the assembled system prompt, and the second context line is the
rank-2 label followed by the second hit's text. -/
theorem C6_context_assembly_witness :
    jsTrim "What is alpha?" ≠ ""
  ∧ (ChatEffect.generateCall
        (chatMessages
          (batchSystemPrompt (buildContext
            [{ text := "alpha chunk", score := 9, source := "uploads/a.pdf" },
             { text := "beta chunk", score := 7, source := "uploads/a.pdf" }]))
          "What is alpha?")
        batchParams ∈ (chatHandler twoHitDeps (some "What is alpha?")).2)
  ∧ (contextLines
      [{ text := "alpha chunk", score := 9, source := "uploads/a.pdf" },
       { text := "beta chunk", score := 7, source := "uploads/a.pdf" }])[1]? =
      some "[Chunk 2] beta chunk" := by
  have h := C6_context_assembly twoHitDeps "What is alpha?" [1] []
    [{ text := "alpha chunk", score := 9, source := "uploads/a.pdf" },
     { text := "beta chunk", score := 7, source := "uploads/a.pdf" }]
    (by decide) rfl rfl (by decide)
  refine ⟨by decide, h.1, ?_⟩
  have h5 := h.2.2.2.2 1 (by decide)
  simpa using h5

/-- Concatenation of a fragment list, in arrival order. -/
def concatFragments : List String → String
  | [] => ""
  | s :: rest => s ++ concatFragments rest

theorem streamedText_events (frags : List String) :
    streamedText ((frags.filter (fun s => !(s == ""))).map
      StreamEvent.contentEv ++ [StreamEvent.doneEv]) =
    concatFragments frags := by
  induction frags with
  | nil => rfl
  | cons a l ih =>
    by_cases ha : a = ""
    · subst ha
      simp only [List.filter_cons, beq_self_eq_true, Bool.not_true,
        Bool.false_eq_true, if_false, concatFragments]
      rw [ih]
      simp [concatFragments]
    · have hb : (!(a == "")) = true := by simp [ha]
      simp only [List.filter_cons, hb, if_true, List.map_cons,
        List.cons_append, streamedText, concatFragments]
      rw [ih]

/-- The first message's content — used as a deterministic generation
provider that simply echoes the system instruction it received. -/
def headContent : List ChatMessage → String
  | m :: _ => m.content
  | [] => ""

/-- Query capabilities whose (deterministic) generation provider echoes
the system prompt: batch mode returns it whole, streaming mode yields it
as a single fragment.  Shared embedding and search results. -/
def promptEchoDeps : QueryDeps where
  embed := fun _ => Except.ok [[1]]
  search := fun _ => Except.ok
    [{ text := "alpha chunk", score := 9, source := "uploads/a.pdf" }]
  complete := fun m _ => Except.ok (some (headContent m))
  fragments := fun m _ => Except.ok [headContent m]

set_option maxRecDepth 100000 in
/-- C8 fails on the code: the two endpoints do not run the same steps —
they build different system prompts (the streaming prompt drops the
clarification rule and the closing reminder; the decoding parameters also
differ in `top_p`).  A deterministic provider — a pure function of the
messages it receives, here echoing the system instruction — therefore
yields a streamed concatenation different from the batch answer on
identical inputs. -/
theorem C8_transport_divergence :
    (chatHandler promptEchoDeps (some "q")).1.answerOf ≠
      some ((chatStreamHandler promptEchoDeps (some "q")).1.concatText)
  ∧ batchParams ≠ streamParams := by
  constructor
  · decide
  · decide

/-- Query capabilities built from a deterministic generation stub `G` (a
pure function of the message list) and a fragmentation stub `F` of the
streamed output, over shared embedding and search capabilities. -/
def mkStubDeps (e : String → Except String (List Vec))
    (s : Vec → Except String (List SearchRes))
    (G : List ChatMessage → String) (F : List ChatMessage → List String) :
    QueryDeps where
  embed := e
  search := s
  complete := fun m _ => Except.ok (some (G m))
  fragments := fun m _ => Except.ok (F m)

/-- C8 as amended: the two transports share validation, embedding, search
and context assembly but build different system prompts, so the streamed
concatenation equals the batch answer only under the extra assumptions
that the deterministic provider's output is the same on the two prompts
and non-empty, and that the streamed fragments concatenate to that output;
under those assumptions the equality holds. -/
theorem C8_stream_batch_equivalence_amended
    (e : String → Except String (List Vec))
    (s : Vec → Except String (List SearchRes))
    (G : List ChatMessage → String) (F : List ChatMessage → List String)
    (q : String) (v : Vec) (vs : List Vec) (results : List SearchRes)
    (hq : jsTrim q ≠ "")
    (he : e q = Except.ok (v :: vs))
    (hs : s v = Except.ok results)
    (hr : results.length ≠ 0)
    (hF : concatFragments
        (F (chatMessages (streamSystemPrompt (buildContext results)) q)) =
      G (chatMessages (streamSystemPrompt (buildContext results)) q))
    (hagree : G (chatMessages (batchSystemPrompt (buildContext results)) q) =
      G (chatMessages (streamSystemPrompt (buildContext results)) q))
    (hne : G (chatMessages (batchSystemPrompt (buildContext results)) q) ≠ "") :
    (chatHandler (mkStubDeps e s G F) (some q)).1.answerOf =
      some ((chatStreamHandler (mkStubDeps e s G F) (some q)).1.concatText) := by
  have hb := (chatHandler_success_shape (mkStubDeps e s G F) q v vs results
    hq he hs hr).2
  have hst := (chatStreamHandler_success_shape (mkStubDeps e s G F) q v vs
    results hq he hs hr).2
  simp only [mkStubDeps] at hb hst
  simp only [mkStubDeps]
  rw [hb, hst]
  simp only [ChatResponse.answerOf, StreamOutcome.concatText,
    streamedText_events, hF, answerFrom]
  rw [← hagree, if_neg hne]

/-- Witness stubs for the amended C8: a provider that answers `"hello"`
for any prompt, streamed as two fragments plus an empty keep-alive one. -/
def stubG : List ChatMessage → String := fun _ => "hello"

/-- Fragmentation of `stubG`'s output used by the amended C8 witness. -/
def stubF : List ChatMessage → List String := fun _ => ["hel", "", "lo"]

/-- A single concrete search hit shared by witnesses. -/
def oneHit : List SearchRes :=
  [{ text := "alpha chunk", score := 9, source := "uploads/a.pdf" }]

/-- Concrete embedding capability for the amended C8 witness. -/
def stubEmbed : String → Except String (List Vec) :=
  fun _ => Except.ok [[1]]

/-- Concrete search capability for the amended C8 witness. -/
def stubSearch : Vec → Except String (List SearchRes) :=
  fun _ => Except.ok oneHit

set_option maxRecDepth 100000 in
/-- C8 amended witness: with a provider whose output agrees on the two
prompts (a constant stub) and fragments that concatenate to it, the
streamed concatenation equals the batch answer on a concrete run. -/
theorem C8_stream_batch_equivalence_amended_witness :
    jsTrim "q" ≠ ""
  ∧ concatFragments (stubF
      (chatMessages (streamSystemPrompt (buildContext oneHit)) "q")) =
      stubG (chatMessages (streamSystemPrompt (buildContext oneHit)) "q")
  ∧ stubG (chatMessages (batchSystemPrompt (buildContext oneHit)) "q") =
      stubG (chatMessages (streamSystemPrompt (buildContext oneHit)) "q")
  ∧ stubG (chatMessages (batchSystemPrompt (buildContext oneHit)) "q") ≠ ""
  ∧ (chatHandler (mkStubDeps stubEmbed stubSearch stubG stubF)
        (some "q")).1.answerOf =
      some ((chatStreamHandler (mkStubDeps stubEmbed stubSearch stubG stubF)
        (some "q")).1.concatText) := by
  refine ⟨by decide, by decide, rfl, by decide, ?_⟩
  exact C8_stream_batch_equivalence_amended stubEmbed stubSearch stubG stubF
    "q" [1] [] oneHit (by decide) rfl rfl (by decide) (by decide) rfl
    (by decide)

theorem mkSourceEntry_lookup_none (idx : Nat) (r : SearchRes) :
    List.lookup "text_preview" (mkSourceEntry idx r) = none := by
  simp [mkSourceEntry, List.lookup]

theorem mkSources_mem_lookup_none (results : List SearchRes) :
    ∀ entry ∈ mkSources results,
      List.lookup "text_preview" entry = none := by
  have haux : ∀ (i : Nat) (rs : List SearchRes),
      ∀ entry ∈ mapIdxFrom mkSourceEntry i rs,
        List.lookup "text_preview" entry = none := by
    intro i rs
    induction rs generalizing i with
    | nil =>
      intro entry h
      simp [mapIdxFrom] at h
    | cons r rest ih =>
      intro entry h
      rcases List.mem_cons.mp h with rfl | h'
      · exact mkSourceEntry_lookup_none i r
      · exact ih (i + 1) entry h'
  exact haux 0 results

/-- C9 as amended: on a successful batch query with results the response
is the answer plus one source entry per result, in result order, the
`j`-th entry carrying `chunk_index = j + 1`, the first-200-character
preview followed by `"..."`, the result's score, and the stored source —
but the preview is keyed `text`, not `text_preview` as the claim states:
no entry has a `text_preview` field. -/
theorem C9_sources_schema_amended (d : QueryDeps) (q : String) (v : Vec)
    (vs : List Vec) (results : List SearchRes) (content : Option String)
    (hq : jsTrim q ≠ "") (he : d.embed q = Except.ok (v :: vs))
    (hs : d.search v = Except.ok results) (hr : results.length ≠ 0)
    (hc : d.complete
        (chatMessages (batchSystemPrompt (buildContext results)) q)
        batchParams = Except.ok content) :
    (chatHandler d (some q)).1 =
      ChatResponse.ok (answerFrom content) (mkSources results)
  ∧ (mkSources results).length = results.length
  ∧ (∀ j (h : j < results.length),
      (mkSources results)[j]? = some
        [("chunk_index", JVal.num (j + 1)),
         ("text", JVal.str (previewText (results.get ⟨j, h⟩).text)),
         ("score", JVal.num (results.get ⟨j, h⟩).score),
         ("source", JVal.str (results.get ⟨j, h⟩).source)])
  ∧ (∀ entry ∈ mkSources results,
      List.lookup "text_preview" entry = none) := by
  refine ⟨?_, mapIdxFrom_length _ _ _, ?_,
    mkSources_mem_lookup_none results⟩
  · rw [(chatHandler_success_shape d q v vs results hq he hs hr).2, hc]
  · intro j h
    have hg := mapIdxFrom_getElemQ mkSourceEntry 0 j results h
    simpa [mkSourceEntry] using hg

set_option maxRecDepth 100000 in
/-- C9 fails on the code at the field name: in a concrete successful
two-result query, the response's first source entry has no `text_preview`
key — the preview is stored under the key `text`. -/
theorem C9_preview_key_missing :
    (chatHandler twoHitDeps (some "q")).1.sourcesOf.length = 2
  ∧ List.lookup "text_preview"
      ((chatHandler twoHitDeps (some "q")).1.sourcesOf.headD []) = none
  ∧ List.lookup "text"
      ((chatHandler twoHitDeps (some "q")).1.sourcesOf.headD []) =
      some (JVal.str "alpha chunk...") := by
  refine ⟨by decide, by decide, by decide⟩

set_option maxRecDepth 100000 in
/-- C9 amended witness: the amended schema evaluated on a concrete
two-result run; the second entry carries rank 2, the truncated preview
under the `text` key, the score and the source. -/
theorem C9_sources_schema_amended_witness :
    jsTrim "q" ≠ ""
  ∧ (chatHandler twoHitDeps (some "q")).1 =
      ChatResponse.ok (answerFrom (some "grounded answer"))
        (mkSources
          [{ text := "alpha chunk", score := 9, source := "uploads/a.pdf" },
           { text := "beta chunk", score := 7, source := "uploads/a.pdf" }])
  ∧ (mkSources
      [{ text := "alpha chunk", score := 9, source := "uploads/a.pdf" },
       { text := "beta chunk", score := 7, source := "uploads/a.pdf" }])[1]? =
      some
        [("chunk_index", JVal.num 2),
         ("text", JVal.str "beta chunk..."),
         ("score", JVal.num 7),
         ("source", JVal.str "uploads/a.pdf")] := by
  have h := C9_sources_schema_amended twoHitDeps "q" [1] []
    [{ text := "alpha chunk", score := 9, source := "uploads/a.pdf" },
     { text := "beta chunk", score := 7, source := "uploads/a.pdf" }]
    (some "grounded answer") (by decide) rfl rfl (by decide) rfl
  refine ⟨by decide, h.1, ?_⟩
  have h3 := h.2.2.1 1 (by decide)
  simpa using h3
